import Mathlib

/-!
Shallow embedding of the port-workflow repository (Python) in Lean 4.

The embedding covers:
  * the relational store (tables container, storage, transport_mean,
    process_instance) and its narrow read/write surface from
    src/config/database.py (get_container, update_storage_status,
    update_transport_timestamps, insert_process_instance,
    update_process_instance_completion);
  * the step handlers from src/handlers/ (crane loading/unloading,
    weighing, storage, truck check-in/check-out);
  * the task wrappers from src/main.py (which record the process
    instance before delegating to a handler);
  * the scenario reconstructor fetch_workflow_scenarios, in both its
    src/flow.py form (returns all scenarios) and its
    src/start_workflow.py form (returns only the first scenario).

Python dynamic values carried in a job's variable set are modelled by
the inductive `Value` (strings, integers, None); Python truthiness is
`Value.truthy`.  Machine timestamps (datetime values) are modelled by
the `Timestamp` structure; `strftime` with pattern YYYY-MM-DD HH:MM:SS
is `fmtTimestamp` and the store's timestamp cast of such strings is
`parseTs`.  Each handler returns a `HandlerOut`: the Python return
value or raised error, the store after the call, and the trace of
store calls it made (so that "zero store calls" claims are statable).
Wall-clock time (datetime.now / time.strftime) is passed in as an
explicit `now : Timestamp` argument.
-/

/-- A dynamic value in a job variable set (Python value). -/
inductive Value where
  | VStr (s : String)
  | VNum (n : Int)
  | VNone
deriving DecidableEq, Repr

/-- Python truthiness of a `Value`: None and empty string and 0 are falsy. -/
def Value.truthy : Value → Bool
  | .VStr s => s ≠ ""
  | .VNum n => n ≠ 0
  | .VNone => false

/-- The Python str() rendering of a `Value`, used when values are
interpolated into description strings. -/
def Value.str : Value → String
  | .VStr s => s
  | .VNum n => toString n
  | .VNone => "None"

/-- A job variable set: an association list with Python-dict lookup
and overwrite semantics (keys are unique in any dict the code builds;
get/set consistently use the first occurrence). -/
abbrev VarSet := List (String × Value)

/-- Dict lookup: `variables.get(k)` (None when absent). -/
def VarSet.get : VarSet → String → Option Value
  | [], _ => none
  | (k', v) :: rest, k => if k' = k then some v else VarSet.get rest k

/-- Dict write: `d[k] = v`, replacing the first binding of `k` or
appending a fresh one. -/
def VarSet.set : VarSet → String → Value → VarSet
  | [], k, v => [(k, v)]
  | (k', v') :: rest, k, v =>
      if k' = k then (k, v) :: rest else (k', v') :: VarSet.set rest k v

/-- Whether the first character sequence starts with the second. -/
def strStarts : List Char → List Char → Bool
  | _, [] => true
  | [], _ :: _ => false
  | a :: as, b :: bs => a = b && strStarts as bs

/-- `s.startswith(p)` on Python strings. -/
def strStartsWith (s p : String) : Bool := strStarts s.data p.data

/-- The required-value check used by every handler:
`if not x or x == 'N/A'` on `variables.get(field)`. -/
def invalidReq (v : Option Value) : Bool :=
  match v with
  | none => true
  | some v => !v.truthy || v == .VStr "N/A"

/-- A point in time, as carried by the store's timestamp columns and
by Python datetime values (datetime guarantees 1 ≤ year ≤ 9999,
1 ≤ month ≤ 12, 1 ≤ day ≤ 31, hour ≤ 23, minute ≤ 59, second ≤ 59). -/
structure Timestamp where
  year : Nat
  month : Nat
  day : Nat
  hour : Nat
  minute : Nat
  second : Nat
deriving DecidableEq, Repr

/-- The decimal digit character of `n % 10`. -/
def digitChar (n : Nat) : Char := Char.ofNat (48 + n % 10)

/-- Two-digit zero-padded decimal rendering (strftime %m, %d, %H, %M, %S). -/
def pad2 (n : Nat) : String := String.mk [digitChar (n / 10), digitChar n]

/-- Four-digit zero-padded decimal rendering (strftime %Y). -/
def pad4 (n : Nat) : String :=
  String.mk [digitChar (n / 1000), digitChar (n / 100), digitChar (n / 10), digitChar n]

/-- `strftime("%Y-%m-%d %H:%M:%S")` on a datetime value. -/
def fmtTimestamp (t : Timestamp) : String :=
  pad4 t.year ++ "-" ++ pad2 t.month ++ "-" ++ pad2 t.day ++ " " ++
    pad2 t.hour ++ ":" ++ pad2 t.minute ++ ":" ++ pad2 t.second

/-- Whether a string has the exact shape YYYY-MM-DD HH:MM:SS
(19 characters: digits with '-', ' ' and ':' separators). -/
def isTimestampShaped (s : String) : Bool :=
  match s.data with
  | [y1, y2, y3, y4, h1, m1, m2, h2, d1, d2, sp, hh1, hh2, c1, mm1, mm2, c2, ss1, ss2] =>
      y1.isDigit && y2.isDigit && y3.isDigit && y4.isDigit && h1 = '-' &&
      m1.isDigit && m2.isDigit && h2 = '-' && d1.isDigit && d2.isDigit &&
      sp = ' ' && hh1.isDigit && hh2.isDigit && c1 = ':' &&
      mm1.isDigit && mm2.isDigit && c2 = ':' && ss1.isDigit && ss2.isDigit
  | _ => false

/-- The numeric value of a digit character. -/
def digitVal (c : Char) : Nat := c.toNat - 48

/-- The store's timestamp cast of a YYYY-MM-DD HH:MM:SS string.
Modelled from the store interface: a string written into a timestamp
column is parsed; a malformed or out-of-range string makes the write
statement fail (the Python wrapper catches that and reports failure). -/
def parseTs (s : String) : Option Timestamp :=
  match s.data with
  | [y1, y2, y3, y4, h1, m1, m2, h2, d1, d2, sp, hh1, hh2, c1, mm1, mm2, c2, ss1, ss2] =>
      if (y1.isDigit && y2.isDigit && y3.isDigit && y4.isDigit && h1 = '-' &&
          m1.isDigit && m2.isDigit && h2 = '-' && d1.isDigit && d2.isDigit &&
          sp = ' ' && hh1.isDigit && hh2.isDigit && c1 = ':' &&
          mm1.isDigit && mm2.isDigit && c2 = ':' && ss1.isDigit && ss2.isDigit) then
        let t : Timestamp :=
          { year := digitVal y1 * 1000 + digitVal y2 * 100 + digitVal y3 * 10 + digitVal y4
            month := digitVal m1 * 10 + digitVal m2
            day := digitVal d1 * 10 + digitVal d2
            hour := digitVal hh1 * 10 + digitVal hh2
            minute := digitVal mm1 * 10 + digitVal mm2
            second := digitVal ss1 * 10 + digitVal ss2 }
        if 1 ≤ t.year ∧ 1 ≤ t.month ∧ t.month ≤ 12 ∧ 1 ≤ t.day ∧ t.day ≤ 31 ∧
            t.hour ≤ 23 ∧ t.minute ≤ 59 ∧ t.second ≤ 59 then some t else none
      else none
  | _ => none

/-- A row of the container table. -/
structure ContainerRow where
  container_id : String
  operation_type : String
  weight : Int
deriving DecidableEq, Repr

/-- A row of the storage table. -/
structure StorageRow where
  storage_id : String
  container_id : String
  storage_status : String
deriving DecidableEq, Repr

/-- A row of the transport_mean table. -/
structure TransportRow where
  transportation_id : String
  container_id : String
  storage_id : String
  check_in : Option Timestamp
  check_out : Option Timestamp
deriving DecidableEq, Repr

/-- The relational store: the four logical tables, plus a flag that
models "the store read itself fails" (any exception inside a read is
absorbed by the Python wrappers). -/
structure Store where
  containers : List ContainerRow
  storages : List StorageRow
  transports : List TransportRow
  processes : List (Nat × String)
  read_fail : Bool
deriving DecidableEq, Repr

/-- A store call, as recorded by a handler's trace. -/
inductive StoreCall where
  | getContainer (cid : Value)
  | updateStorage (cid : Value) (status : String)
  | updateTransport (tid : Value) (ci co : Option Value)
  | insertProcessInstance (key : Nat) (desc : String)
  | updateProcessCompletion (key : Nat) (status : String)
deriving DecidableEq, Repr

/-- Whether a store call writes to the store (everything except the
container read). -/
def StoreCall.isWrite : StoreCall → Bool
  | .getContainer _ => false
  | _ => true

/-- The joined record returned by `get_container`: container columns
plus the LEFT-JOINed storage and transport columns (None when the
joined row is absent). -/
structure ContainerRec where
  container_id : String
  operation_type : String
  weight : Int
  storage_id : Option String
  storage_status : Option String
  transportation_id : Option String
  check_in : Option Timestamp
  check_out : Option Timestamp
deriving DecidableEq, Repr

/-- `get_container` (src/config/database.py): SELECT the container row
with the given id, LEFT JOIN storage and transport_mean on
container_id, fetchone.  Every exception (including a failing read,
and the type error of comparing the varchar key column with a
non-string parameter) is absorbed and mapped to None. -/
def get_container (db : Store) (v : Value) : Option ContainerRec :=
  if db.read_fail then none
  else
    match v with
    | .VStr cid =>
        match db.containers.find? (·.container_id = cid) with
        | none => none
        | some c =>
            let s := db.storages.find? (·.container_id = cid)
            let t := db.transports.find? (·.container_id = cid)
            some { container_id := c.container_id
                   operation_type := c.operation_type
                   weight := c.weight
                   storage_id := s.map (·.storage_id)
                   storage_status := s.map (·.storage_status)
                   transportation_id := t.map (·.transportation_id)
                   check_in := t.bind (·.check_in)
                   check_out := t.bind (·.check_out) }
    | _ => none

/-- `update_storage_status` (src/config/database.py): UPDATE storage
SET storage_status WHERE container_id matches; returns whether any row
was affected. -/
def update_storage_status (db : Store) (cid : Value) (status : String) : Store × Bool :=
  let matched := db.storages.any (fun r => Value.VStr r.container_id == cid)
  ({ db with storages := db.storages.map (fun r =>
        if Value.VStr r.container_id == cid then { r with storage_status := status } else r) },
    matched)

/-- `update_transport_timestamps` (src/config/database.py): dynamic
partial UPDATE of transport_mean setting only the supplied timestamp
columns; returns False with no write when no value is supplied, when
the statement fails (a supplied value does not cast to a timestamp),
or when no row matches. -/
def update_transport_timestamps (db : Store) (tid : Value) (ci co : Option Value) :
    Store × Bool :=
  if ci = none ∧ co = none then (db, false)
  else if (ci.elim false (fun v => (parseTsV v).isNone)) ∨
          (co.elim false (fun v => (parseTsV v).isNone)) then (db, false)
  else
    let matched := db.transports.any (fun r => Value.VStr r.transportation_id == tid)
    ({ db with transports := db.transports.map (fun r =>
          if Value.VStr r.transportation_id == tid then
            { r with
              check_in := match ci with | some v => parseTsV v | none => r.check_in
              check_out := match co with | some v => parseTsV v | none => r.check_out }
          else r) },
      matched)
where
  /-- The store's cast of a dynamic parameter into a timestamp column. -/
  parseTsV : Value → Option Timestamp
    | .VStr s => parseTs s
    | _ => none

/-- The description line built by `insert_process_instance`:
"Started: <timestamp>" plus each identifying field that is truthy. -/
def buildStartDesc (now : Timestamp) (op cid tid : Option Value) : String :=
  let part (label : String) (v : Option Value) : List String :=
    match v with
    | some x => if x.truthy then [label ++ x.str] else []
    | none => []
  String.intercalate ", "
    (("Started: " ++ fmtTimestamp now) ::
      (part "Operation: " op ++ part "Container: " cid ++ part "Transport: " tid))

/-- `insert_process_instance` (src/config/database.py): builds the
description and upserts by process_instance_key — ON CONFLICT the
description is replaced by the freshly built one. -/
def insert_process_instance (now : Timestamp) (db : Store) (key : Nat)
    (op cid tid : Option Value) : Store × Bool :=
  let desc := buildStartDesc now op cid tid
  if db.processes.any (·.1 = key) then
    ({ db with processes := db.processes.map (fun p => if p.1 = key then (key, desc) else p) },
      true)
  else
    ({ db with processes := db.processes ++ [(key, desc)] }, true)

/-- `update_process_instance_completion` (src/config/database.py):
reads the existing description; if a row exists, appends
", Ended: <timestamp>, Status: <status>" and writes it back; if no row
exists, does nothing.  Returns True in both cases. -/
def update_process_instance_completion (now : Timestamp) (db : Store) (key : Nat)
    (final_status : String) : Store × Bool :=
  match db.processes.find? (·.1 = key) with
  | some p =>
      let updated := p.2 ++ ", Ended: " ++ fmtTimestamp now ++ ", Status: " ++ final_status
      ({ db with processes := db.processes.map (fun q => if q.1 = key then (key, updated) else q) },
        true)
  | none => (db, true)

/-- The description lookup used to observe process-instance state. -/
def lookupDesc (db : Store) (key : Nat) : Option String :=
  (db.processes.find? (·.1 = key)).map (·.2)

/-- A handler error: the Python exception a handler raises. -/
inductive HErr where
  /-- ValueError for a missing or sentinel required variable. -/
  | validation (field : String)
  /-- The fatal container-not-found Exception of weighing and storage. -/
  | notFound
  /-- ValueError for a transportation id without the truck marker. -/
  | notTruck
deriving DecidableEq, Repr

/-- The outcome of one handler (or task-wrapper) invocation: the
returned variable set or raised error, the store afterwards, and the
trace of store calls made. -/
structure HandlerOut where
  res : Except HErr VarSet
  db : Store
  calls : List StoreCall

/-- `handle_crane_loading` (src/handlers/crane_operations.py):
validates containerId and transportationId, reads the container (a
missing row is only a logged warning), simulates the crane stages, and
returns the input variables overlaid with the crane-loading result
fields.  Performs no store write. -/
def handle_crane_loading (now : Timestamp) (db : Store) (vars : VarSet) : HandlerOut :=
  let cidO := vars.get "containerId"
  let tidO := vars.get "transportationId"
  let opV := (vars.get "operationType").getD (.VStr "loading")
  if invalidReq cidO then ⟨.error (.validation "containerId"), db, []⟩
  else if invalidReq tidO then ⟨.error (.validation "transportationId"), db, []⟩
  else
    let cidV := cidO.getD .VNone
    let tidV := tidO.getD .VNone
    -- get_container is called only for logging context; absence is non-fatal
    let result := ((((((vars.set "craneLoadingStatus" (.VStr "completed")).set
      "craneLoadingTimestamp" (.VStr (fmtTimestamp now))).set
      "craneOperator" (.VStr "CRANE-OP-001")).set
      "containerId" cidV).set
      "transportationId" tidV).set
      "operationType" opV)
    ⟨.ok result, db, [.getContainer cidV]⟩

/-- `handle_crane_unloading` (src/handlers/crane_operations.py):
same shape as loading, with the unloading result fields (including the
unloading zone).  Performs no store write. -/
def handle_crane_unloading (now : Timestamp) (db : Store) (vars : VarSet) : HandlerOut :=
  let cidO := vars.get "containerId"
  let tidO := vars.get "transportationId"
  let opV := (vars.get "operationType").getD (.VStr "unloading")
  if invalidReq cidO then ⟨.error (.validation "containerId"), db, []⟩
  else if invalidReq tidO then ⟨.error (.validation "transportationId"), db, []⟩
  else
    let cidV := cidO.getD .VNone
    let tidV := tidO.getD .VNone
    let result := (((((((vars.set "craneUnloadingStatus" (.VStr "completed")).set
      "craneUnloadingTimestamp" (.VStr (fmtTimestamp now))).set
      "craneOperator" (.VStr "CRANE-OP-002")).set
      "unloadingZone" (.VStr "ZONE-A1")).set
      "containerId" cidV).set
      "transportationId" tidV).set
      "operationType" opV)
    ⟨.ok result, db, [.getContainer cidV]⟩

/-- `handle_weighing` (src/handlers/weighing_operations.py): validates
containerId, reads the container (absence is fatal), compares the
stored weight against the 30480 kg maximum, and returns the input
variables overlaid with the weighing result fields.  Never writes to
the store. -/
def handle_weighing (now : Timestamp) (db : Store) (vars : VarSet) : HandlerOut :=
  let cidO := vars.get "containerId"
  let tidO := vars.get "transportationId"
  let opV := (vars.get "operationType").getD (.VStr "unknown")
  if invalidReq cidO then ⟨.error (.validation "containerId"), db, []⟩
  else
    let cidV := cidO.getD .VNone
    match get_container db cidV with
    | none => ⟨.error .notFound, db, [.getContainer cidV]⟩
    | some cd =>
        let weight := cd.weight
        let weight_status := if weight ≤ 30480 then "OK" else "OVERWEIGHT"
        let result := ((((((((((vars.set "weighingStatus" (.VStr "completed")).set
          "weighingTimestamp" (.VStr (fmtTimestamp now))).set
          "weight" (.VNum weight)).set
          "weightUnit" (.VStr "kg")).set
          "weightStatus" (.VStr weight_status)).set
          "scaleId" (.VStr "SCALE-001")).set
          "weighingOperator" (.VStr "WEIGH-OP-001")).set
          "containerId" cidV).set
          "transportationId" (tidO.getD .VNone)).set
          "operationType" opV)
        ⟨.ok result, db, [.getContainer cidV]⟩

/-- The value a joined optional column contributes to a variable set. -/
def optVal (s : Option String) : Value :=
  match s with
  | some x => .VStr x
  | none => .VNone

/-- `handle_storage` (src/handlers/storage_operations.py): validates
containerId, reads the container (absence is fatal), unconditionally
updates the storage status to complete (a write that matches no row is
only a logged warning), and returns the input variables overlaid with
the storage result fields. -/
def handle_storage (now : Timestamp) (db : Store) (vars : VarSet) : HandlerOut :=
  let cidO := vars.get "containerId"
  let tidO := vars.get "transportationId"
  let opV := (vars.get "operationType").getD (.VStr "unknown")
  if invalidReq cidO then ⟨.error (.validation "containerId"), db, []⟩
  else
    let cidV := cidO.getD .VNone
    match get_container db cidV with
    | none => ⟨.error .notFound, db, [.getContainer cidV]⟩
    | some cd =>
        let (db', _success) := update_storage_status db cidV "complete"
        let result := (((((((vars.set "storageStatus" (.VStr "complete")).set
          "storageTimestamp" (.VStr (fmtTimestamp now))).set
          "storageOperator" (.VStr "STORAGE-OP-001")).set
          "storageId" (optVal cd.storage_id)).set
          "containerId" cidV).set
          "transportationId" (tidO.getD .VNone)).set
          "operationType" opV)
        ⟨.ok result, db', [.getContainer cidV, .updateStorage cidV "complete"]⟩

/-- `handle_truck_checkin` (src/handlers/truck_operations.py):
validates containerId, transportationId and the truck marker; reuses a
caller-supplied checkIn value verbatim when it is truthy, otherwise
mints a fresh timestamp; persists it through the partial update that
touches only check_in; and returns the input variables overlaid with
the check-in result fields. -/
def handle_truck_checkin (now : Timestamp) (db : Store) (vars : VarSet) : HandlerOut :=
  let cidO := vars.get "containerId"
  let tidO := vars.get "transportationId"
  let opV := (vars.get "operationType").getD (.VStr "unknown")
  let checkInO := vars.get "checkIn"
  if invalidReq cidO then ⟨.error (.validation "containerId"), db, []⟩
  else if invalidReq tidO then ⟨.error (.validation "transportationId"), db, []⟩
  else
    let cidV := cidO.getD .VNone
    let tidV := tidO.getD .VNone
    if !(match tidV with | .VStr s => strStartsWith s "truck" | _ => false) then
      ⟨.error .notTruck, db, []⟩
    else
      let ciV : Value :=
        match checkInO with
        | some v => if v.truthy then v else .VStr (fmtTimestamp now)
        | none => .VStr (fmtTimestamp now)
      let (db', _success) := update_transport_timestamps db tidV (some ciV) none
      let result := ((((((vars.set "checkIn" ciV).set
        "truckCheckInStatus" (.VStr "completed")).set
        "truckCheckInOperator" (.VStr "GATE-OP-001")).set
        "containerId" cidV).set
        "transportationId" tidV).set
        "operationType" opV)
      ⟨.ok result, db', [.updateTransport tidV (some ciV) none]⟩

/-- `handle_truck_checkout` (src/handlers/truck_operations.py):
symmetric to check-in for checkOut (only the check_out column is
touched; the elapsed-duration computation is log-only and best-effort,
so it has no observable effect here). -/
def handle_truck_checkout (now : Timestamp) (db : Store) (vars : VarSet) : HandlerOut :=
  let cidO := vars.get "containerId"
  let tidO := vars.get "transportationId"
  let opV := (vars.get "operationType").getD (.VStr "unknown")
  let checkOutO := vars.get "checkOut"
  if invalidReq cidO then ⟨.error (.validation "containerId"), db, []⟩
  else if invalidReq tidO then ⟨.error (.validation "transportationId"), db, []⟩
  else
    let cidV := cidO.getD .VNone
    let tidV := tidO.getD .VNone
    if !(match tidV with | .VStr s => strStartsWith s "truck" | _ => false) then
      ⟨.error .notTruck, db, []⟩
    else
      let coV : Value :=
        match checkOutO with
        | some v => if v.truthy then v else .VStr (fmtTimestamp now)
        | none => .VStr (fmtTimestamp now)
      let (db', _success) := update_transport_timestamps db tidV none (some coV)
      let result := ((((((vars.set "checkOut" coV).set
        "truckCheckOutStatus" (.VStr "completed")).set
        "truckCheckOutOperator" (.VStr "GATE-OP-002")).set
        "containerId" cidV).set
        "transportationId" tidV).set
        "operationType" opV)
      ⟨.ok result, db', [.updateTransport tidV none (some coV)]⟩

/-- `crane_loading_task` (src/main.py): the task wrapper invoked by the
engine — when the job carries a (truthy) process instance key it first
records the process instance, then delegates to the handler. -/
def crane_loading_task (now : Timestamp) (processInstanceKey : Nat) (db : Store)
    (vars : VarSet) : HandlerOut :=
  if processInstanceKey ≠ 0 then
    let op := (vars.get "operationType").getD (.VStr "loading")
    let (db1, _ok) := insert_process_instance now db processInstanceKey
      (some op) (vars.get "containerId") (vars.get "transportationId")
    let out := handle_crane_loading now db1 vars
    let insertCall := StoreCall.insertProcessInstance processInstanceKey
      (buildStartDesc now (some op) (vars.get "containerId") (vars.get "transportationId"))
    { out with calls := insertCall :: out.calls }
  else
    handle_crane_loading now db vars

/-- One row of the transport_mean-container-storage join issued by
`fetch_workflow_scenarios` (JOIN container ON t.container_id =
c.container_id, JOIN storage ON t.storage_id = s.storage_id). -/
structure JoinedRow where
  container_id : String
  operation_type : String
  weight : Int
  transportation_id : String
  check_in : Option Timestamp
  check_out : Option Timestamp
  storage_status : String
deriving DecidableEq, Repr

/-- Lexicographic strict comparison of character sequences: the text
ordering SQL uses for ORDER BY on the id columns. -/
def strLt : List Char → List Char → Bool
  | [], [] => false
  | [], _ :: _ => true
  | _ :: _, [] => false
  | a :: as, b :: bs => if a < b then true else if a = b then strLt as bs else false

/-- Non-strict text comparison. -/
def strLe (a b : String) : Bool := strLt a.data b.data || a == b

/-- The ORDER BY (t.transportation_id, c.container_id) ordering. -/
def rowLe (a b : JoinedRow) : Prop :=
  strLt a.transportation_id.data b.transportation_id.data = true ∨
    (a.transportation_id = b.transportation_id ∧ strLe a.container_id b.container_id = true)

instance : DecidableRel rowLe := fun a b => by
  unfold rowLe; infer_instance

/-- The join of the reconstructor's query, before ordering. -/
def joinRows (db : Store) : List JoinedRow :=
  db.transports.flatMap (fun t =>
    (db.containers.filter (·.container_id = t.container_id)).flatMap (fun c =>
      (db.storages.filter (·.storage_id = t.storage_id)).map (fun s =>
        { container_id := c.container_id
          operation_type := c.operation_type
          weight := c.weight
          transportation_id := t.transportation_id
          check_in := t.check_in
          check_out := t.check_out
          storage_status := s.storage_status })))

/-- The rows of the reconstructor's query in result order. -/
def sortedRows (db : Store) : List JoinedRow :=
  List.insertionSort rowLe (joinRows db)

/-- The base scenario dictionary built for every emitted row:
containerId, transportationId (coerced to a string), operationType,
weight (coerced to a numeric value), storageStatus. -/
def baseScenario (row : JoinedRow) : VarSet :=
  [("containerId", .VStr row.container_id),
   ("transportationId", .VStr row.transportation_id),
   ("operationType", .VStr row.operation_type),
   ("weight", .VNum row.weight),
   ("storageStatus", .VStr row.storage_status)]

/-- The per-row step of the reconstructor loop: a truck row missing
check_in or check_out is skipped entirely; a truck row with both gets
checkIn/checkOut added in YYYY-MM-DD HH:MM:SS form; any other row
yields the base scenario. -/
def scenarioOfRow (row : JoinedRow) : Option VarSet :=
  if strStartsWith row.transportation_id "truck" then
    match row.check_in, row.check_out with
    | some ci, some co =>
        some (((baseScenario row).set "checkIn" (.VStr (fmtTimestamp ci))).set
          "checkOut" (.VStr (fmtTimestamp co)))
    | _, _ => none
  else some (baseScenario row)

/-- `PortManagementSystem.fetch_workflow_scenarios` (src/flow.py):
runs the ordered join, applies the truck-completeness rule, and
returns every resulting scenario (an empty list when the store read
fails). -/
def flow_fetch_workflow_scenarios (db : Store) : List VarSet :=
  if db.read_fail then []
  else (sortedRows db).filterMap scenarioOfRow

/-- `fetch_workflow_scenarios` (src/start_workflow.py): identical
query and loop, but the final statement is `return [scenarios[0]]`
(the `return scenarios` line is commented out), so only the first
scenario is returned; with no scenarios the subscript raises and the
surrounding except returns the empty list. -/
def sw_fetch_workflow_scenarios (db : Store) : List VarSet :=
  if db.read_fail then []
  else
    match (sortedRows db).filterMap scenarioOfRow with
    | [] => []
    | x :: _ => [x]

/-- The returned variable set satisfies `P` (and no error was raised). -/
def okAnd (P : VarSet → Prop) : Except HErr VarSet → Prop
  | .ok out => P out
  | .error _ => False

/-- Every key outside `ov` maps to the same value in `out` as in `vars`. -/
def preservesExcept (ov : List String) (vars out : VarSet) : Prop :=
  ∀ k, k ∉ ov → out.get k = vars.get k

/-- The three routing-critical keys are present in the variable set. -/
def hasRoutingKeys (out : VarSet) : Prop :=
  (out.get "containerId").isSome ∧ (out.get "transportationId").isSome ∧
    (out.get "operationType").isSome

/-- Any sequence of storage-handler invocations, folded over the store. -/
def runStorageSeq (now : Timestamp) (jobs : List VarSet) (db : Store) : Store :=
  jobs.foldl (fun d vs => (handle_storage now d vs).db) db

/-- The handler-specific result fields overlaid by crane loading. -/
def ovCraneLoading : List String :=
  ["craneLoadingStatus", "craneLoadingTimestamp", "craneOperator",
   "containerId", "transportationId", "operationType"]

/-- The handler-specific result fields overlaid by crane unloading. -/
def ovCraneUnloading : List String :=
  ["craneUnloadingStatus", "craneUnloadingTimestamp", "craneOperator", "unloadingZone",
   "containerId", "transportationId", "operationType"]

/-- The handler-specific result fields overlaid by weighing. -/
def ovWeighing : List String :=
  ["weighingStatus", "weighingTimestamp", "weight", "weightUnit", "weightStatus",
   "scaleId", "weighingOperator", "containerId", "transportationId", "operationType"]

/-- The handler-specific result fields overlaid by storage. -/
def ovStorage : List String :=
  ["storageStatus", "storageTimestamp", "storageOperator", "storageId",
   "containerId", "transportationId", "operationType"]

/-- The handler-specific result fields overlaid by truck check-in. -/
def ovCheckIn : List String :=
  ["checkIn", "truckCheckInStatus", "truckCheckInOperator",
   "containerId", "transportationId", "operationType"]

/-- The handler-specific result fields overlaid by truck check-out. -/
def ovCheckOut : List String :=
  ["checkOut", "truckCheckOutStatus", "truckCheckOutOperator",
   "containerId", "transportationId", "operationType"]

/-- A scenario is well formed when its transportationId is a string,
its weight is numeric, and — when the transport is a truck — checkIn
and checkOut are both present in YYYY-MM-DD HH:MM:SS form. -/
def scenarioWellFormed (s : VarSet) : Prop :=
  (∃ tid : String, s.get "transportationId" = some (.VStr tid) ∧
     (strStartsWith tid "truck" = true →
        (∃ a, s.get "checkIn" = some (.VStr a) ∧ isTimestampShaped a = true) ∧
        (∃ b, s.get "checkOut" = some (.VStr b) ∧ isTimestampShaped b = true))) ∧
  (∃ w : Int, s.get "weight" = some (.VNum w))

/-- A store with two ship-borne containers, both rows well formed. -/
def c1db : Store :=
  { containers := [⟨"C1001", "loading", 12000⟩, ⟨"C1002", "unloading", 20000⟩]
    storages := [⟨"S1", "C1001", "incomplete"⟩, ⟨"S2", "C1002", "incomplete"⟩]
    transports := [⟨"ship9109", "C1001", "S1", none, none⟩,
                   ⟨"ship9110", "C1002", "S2", none, none⟩]
    processes := []
    read_fail := false }

/-- An empty store used to observe the crane task wrapper. -/
def c2wdb : Store :=
  { containers := [], storages := [], transports := [], processes := [], read_fail := false }

/-- A store whose only storage row is already complete. -/
def c3db : Store :=
  { containers := [⟨"C1001", "loading", 12000⟩]
    storages := [⟨"S1", "C1001", "complete"⟩]
    transports := []
    processes := []
    read_fail := false }

/-- A store holding one overweight container (35000 kg). -/
def c4db : Store :=
  { containers := [⟨"C1001", "loading", 35000⟩]
    storages := []
    transports := []
    processes := []
    read_fail := false }

/-- The spec example store: one truck with only check_in set and one
ship with no timestamps. -/
def c5db : Store :=
  { containers := [⟨"C1001", "loading", 12000⟩, ⟨"C1002", "unloading", 20000⟩]
    storages := [⟨"S1", "C1001", "incomplete"⟩, ⟨"S2", "C1002", "incomplete"⟩]
    transports := [⟨"truck101", "C1001", "S1", some ⟨2025, 10, 8, 8, 0, 0⟩, none⟩,
                   ⟨"ship9109", "C1002", "S2", none, none⟩]
    processes := []
    read_fail := false }

/-- An empty store (no container row exists). -/
def c6db : Store :=
  { containers := [], storages := [], transports := [], processes := [], read_fail := false }

/-- A variable set naming a container that is absent from the store. -/
def c6vars : VarSet :=
  [("containerId", .VStr "C1001"), ("transportationId", .VStr "ship9109")]

/-- A store with one truck row carrying only a check_out timestamp. -/
def c7db : Store :=
  { containers := [⟨"C1001", "loading", 12000⟩]
    storages := [⟨"S1", "C1001", "incomplete"⟩]
    transports := [⟨"truck101", "C1001", "S1", none, some ⟨2025, 10, 8, 10, 0, 0⟩⟩]
    processes := []
    read_fail := false }

/-- A truck check-in job that already carries a checkIn value. -/
def c7vars : VarSet :=
  [("containerId", .VStr "C1001"), ("transportationId", .VStr "truck101"),
   ("operationType", .VStr "loading"), ("checkIn", .VStr "2025-10-08 08:00:00")]

/-- A store with one container and its storage and transport rows. -/
def c8db : Store :=
  { containers := [⟨"C1001", "loading", 12000⟩]
    storages := [⟨"S1", "C1001", "incomplete"⟩]
    transports := [⟨"truck101", "C1001", "S1", none, none⟩]
    processes := []
    read_fail := false }

/-- A job variable set carrying an extra passthrough key. -/
def c8vars : VarSet :=
  [("containerId", .VStr "C1001"), ("transportationId", .VStr "truck101"),
   ("operationType", .VStr "loading"), ("customerRef", .VStr "ACME-7")]

/-- A store with no process instances recorded yet. -/
def c9db : Store :=
  { containers := [], storages := [], transports := [], processes := [], read_fail := false }

/-- A store whose reads fail, although the container row exists. -/
def c10db : Store :=
  { containers := [⟨"C1001", "loading", 12000⟩]
    storages := [⟨"S1", "C1001", "incomplete"⟩]
    transports := []
    processes := []
    read_fail := true }

/-- A job variable set naming the container of `c10db`. -/
def c10vars : VarSet :=
  [("containerId", .VStr "C1001"), ("transportationId", .VStr "ship9109")]

/-! ### Basic lemmas about the embedding -/

theorem VarSet.get_set (vs : VarSet) (k k' : String) (v : Value) :
    (vs.set k v).get k' = if k' = k then some v else vs.get k' := by
  induction vs with
  | nil =>
      by_cases h : k = k'
      · subst h; simp [VarSet.set, VarSet.get]
      · have h' : ¬ (k' = k) := fun hh => h hh.symm
        simp [VarSet.set, VarSet.get, h, h']
  | cons p rest ih =>
      obtain ⟨pk, pv⟩ := p
      by_cases h1 : pk = k
      · subst h1
        by_cases h2 : k' = pk
        · subst h2; simp [VarSet.set, VarSet.get]
        · have h2' : ¬ (pk = k') := fun hh => h2 hh.symm
          simp [VarSet.set, VarSet.get, h2, h2']
      · by_cases h2 : pk = k'
        · have h3 : ¬ (k' = k) := fun hh => h1 (h2.trans hh)
          simp [VarSet.set, VarSet.get, h1, h2, h3]
        · simp [VarSet.set, VarSet.get, h1, h2, ih]

theorem VarSet.get_set_self (vs : VarSet) (k : String) (v : Value) :
    (vs.set k v).get k = some v := by
  simp [VarSet.get_set]

theorem VarSet.get_set_ne (vs : VarSet) (k k' : String) (v : Value) (h : k' ≠ k) :
    (vs.set k v).get k' = vs.get k' := by
  simp [VarSet.get_set, h]

theorem map_id_of_mem {α : Type} (l : List α) (f : α → α) (h : ∀ a ∈ l, f a = a) :
    l.map f = l := by
  induction l with
  | nil => rfl
  | cons x xs ih =>
      simp only [List.map_cons, h x (List.mem_cons_self x xs)]
      rw [ih (fun a ha => h a (List.mem_cons_of_mem x ha))]

theorem digitChar_isDigit (n : Nat) : (digitChar n).isDigit = true := by
  have h : n % 10 < 10 := Nat.mod_lt _ (by norm_num)
  unfold digitChar
  set m := n % 10 with hm
  clear hm
  interval_cases m <;> decide

theorem isTimestampShaped_fmt (t : Timestamp) :
    isTimestampShaped (fmtTimestamp t) = true := by
  unfold fmtTimestamp isTimestampShaped pad4 pad2
  simp [String.data_append, digitChar_isDigit]

theorem find?_map_replace (l : List (Nat × String)) (key : Nat) (d : String)
    (h : l.any (fun p => p.1 = key) = true) :
    (l.map (fun p => if p.1 = key then (key, d) else p)).find? (fun p => p.1 = key) =
      some (key, d) := by
  induction l with
  | nil => simp at h
  | cons p ps ih =>
      by_cases hp : p.1 = key
      · simp [hp, List.find?]
      · simp only [List.any_cons, decide_eq_true_eq, Bool.or_eq_true] at h
        rcases h with h | h
        · exact absurd h hp
        · rw [List.map_cons, if_neg hp, List.find?_cons_of_neg _ (by simpa using hp)]
          exact ih h

theorem find?_append_new (l : List (Nat × String)) (key : Nat) (d : String)
    (h : l.any (fun p => p.1 = key) = false) :
    (l ++ [(key, d)]).find? (fun p => p.1 = key) = some (key, d) := by
  induction l with
  | nil => simp [List.find?]
  | cons p ps ih =>
      simp only [List.any_cons, Bool.or_eq_false_iff, decide_eq_false_iff_not] at h
      rw [List.cons_append, List.find?_cons_of_neg _ (by simpa using h.1)]
      exact ih (by simp [h.2])

theorem lookupDesc_insert (now : Timestamp) (db : Store) (key : Nat)
    (o c t : Option Value) :
    lookupDesc (insert_process_instance now db key o c t).1 key =
      some (buildStartDesc now o c t) := by
  unfold insert_process_instance lookupDesc
  by_cases h : db.processes.any (fun p => p.1 = key) = true
  · simp only [h, if_true]
    rw [find?_map_replace db.processes key _ h]
    rfl
  · rw [Bool.not_eq_true] at h
    simp only [h, Bool.false_eq_true, if_false]
    rw [find?_append_new db.processes key _ h]
    rfl

theorem truck_marker_valid (tid : String) (h : strStartsWith tid "truck" = true) :
    invalidReq (some (.VStr tid)) = false := by
  unfold strStartsWith at h
  unfold invalidReq Value.truthy
  cases htid : tid with
  | mk data =>
      cases data with
      | nil => subst htid; simp [strStarts] at h
      | cons a as =>
          subst htid
          have ha : a = 't' := by
            by_contra hne
            simp [strStarts, hne] at h
          subst ha
          simp [String.ext_iff]

theorem handle_storage_storages (now : Timestamp) (db : Store) (vs : VarSet) :
    (handle_storage now db vs).db.storages = db.storages ∨
    ∃ cv, (handle_storage now db vs).db.storages =
      db.storages.map (fun r =>
        if Value.VStr r.container_id == cv then { r with storage_status := "complete" } else r) := by
  unfold handle_storage
  by_cases h : invalidReq (vs.get "containerId") = true
  · simp [h]
  · simp only [h, if_false]
    cases hg : get_container db ((vs.get "containerId").getD .VNone) with
    | none => simp
    | some cd =>
        right
        exact ⟨(vs.get "containerId").getD .VNone, rfl⟩

theorem update_transport_frame (db : Store) (tid : String) (ci : Option Value) :
    ∃ f : Option Timestamp → Option Timestamp,
      (update_transport_timestamps db (.VStr tid) ci none).1.transports =
        db.transports.map (fun r =>
          if r.transportation_id = tid then { r with check_in := f r.check_in } else r) := by
  have hid : db.transports = db.transports.map (fun r =>
      if r.transportation_id = tid then { r with check_in := id r.check_in } else r) := by
    rw [map_id_of_mem]
    intro r _
    by_cases hm : r.transportation_id = tid
    · rw [if_pos hm]
      rfl
    · rw [if_neg hm]
  unfold update_transport_timestamps
  cases ci with
  | none => exact ⟨id, by simp only [if_pos]; exact hid⟩
  | some v =>
      by_cases hp : (update_transport_timestamps.parseTsV v).isNone
      · refine ⟨id, ?_⟩
        simp only [reduceCtorEq, and_false, if_false, Option.elim, hp, or_false, if_true]
        exact hid
      · refine ⟨fun _ => update_transport_timestamps.parseTsV v, ?_⟩
        simp only [reduceCtorEq, and_false, if_false, Option.elim, hp, or_false,
          Bool.false_eq_true, if_false]
        apply List.map_congr_left
        intro r _
        by_cases hm : r.transportation_id = tid
        · have hb : (Value.VStr r.transportation_id == Value.VStr tid) = true := by
            simp [hm]
          simp only [hb, if_true, if_pos hm]
        · have hb : (Value.VStr r.transportation_id == Value.VStr tid) = false := by
            simp [hm]
          simp only [hb, Bool.false_eq_true, if_false, if_neg hm]

theorem scenarioOfRow_wellFormed (row : JoinedRow) (s : VarSet)
    (h : scenarioOfRow row = some s) : scenarioWellFormed s := by
  unfold scenarioOfRow at h
  by_cases htruck : strStartsWith row.transportation_id "truck" = true
  · rw [if_pos htruck] at h
    cases hci : row.check_in with
    | none => rw [hci] at h; cases hco : row.check_out <;> rw [hco] at h <;> simp at h
    | some ci =>
        cases hco : row.check_out with
        | none => rw [hci, hco] at h; simp at h
        | some co =>
            rw [hci, hco] at h
            simp only [Option.some.injEq] at h
            subst h
            constructor
            · refine ⟨row.transportation_id, ?_, ?_⟩
              · simp +decide [VarSet.get_set, baseScenario, VarSet.get]
              · intro _
                constructor
                · refine ⟨fmtTimestamp ci, ?_, isTimestampShaped_fmt ci⟩
                  simp +decide [VarSet.get_set, baseScenario, VarSet.get]
                · refine ⟨fmtTimestamp co, ?_, isTimestampShaped_fmt co⟩
                  simp +decide [VarSet.get_set, baseScenario, VarSet.get]
            · refine ⟨row.weight, ?_⟩
              simp +decide [VarSet.get_set, baseScenario, VarSet.get]
  · rw [if_neg htruck] at h
    simp only [Option.some.injEq] at h
    subst h
    constructor
    · refine ⟨row.transportation_id, ?_, ?_⟩
      · simp +decide [baseScenario, VarSet.get]
      · intro hcontra
        exact absurd hcontra htruck
    · refine ⟨row.weight, ?_⟩
      simp +decide [baseScenario, VarSet.get]

/-- Claim C1: on a store with two well-formed ship rows, the flow.py
reconstructor returns both scenarios, but the start_workflow.py
reconstructor returns only the first — its final statement is
`return [scenarios[0]]` with the full return commented out, so not
every well-formed entity combination appears in its returned list. -/
theorem start_workflow_returns_single_scenario :
    (flow_fetch_workflow_scenarios c1db).length = 2 ∧
    (sw_fetch_workflow_scenarios c1db).length = 1 ∧
    sw_fetch_workflow_scenarios c1db ≠ flow_fetch_workflow_scenarios c1db := by
  refine ⟨by decide, by decide, by decide⟩

/-- Claim C2 counterexample: a crane-loading job whose containerId is
the sentinel N/A and whose process-instance key is nonzero is rejected
with a validation failure, yet the task wrapper has already made a
store call (and a store write) recording the process instance, so the
rejection path does not make zero store calls. -/
theorem crane_task_records_before_validation :
    (crane_loading_task ⟨2025, 10, 8, 9, 0, 0⟩ 1 c2wdb
        [("containerId", .VStr "N/A"), ("transportationId", .VStr "truck101"),
         ("operationType", .VStr "loading")]).res = .error (.validation "containerId") ∧
    (crane_loading_task ⟨2025, 10, 8, 9, 0, 0⟩ 1 c2wdb
        [("containerId", .VStr "N/A"), ("transportationId", .VStr "truck101"),
         ("operationType", .VStr "loading")]).calls ≠ [] ∧
    (crane_loading_task ⟨2025, 10, 8, 9, 0, 0⟩ 1 c2wdb
        [("containerId", .VStr "N/A"), ("transportationId", .VStr "truck101"),
         ("operationType", .VStr "loading")]).db.processes ≠ [] := by
  refine ⟨rfl, ?_, ?_⟩ <;> decide

/-- Claim C2 (amended): a crane-loading job with a required field
absent or equal to N/A is rejected with a validation failure and the
handler itself performs zero store calls and leaves the store
untouched; the surrounding task wrapper, however, records the process
instance before invoking the handler, so with a nonzero process
instance key that one store write still happens on the rejection
path. -/
theorem crane_validation_no_handler_store_access :
    (∀ (now : Timestamp) (db : Store) (vars : VarSet),
        invalidReq (vars.get "containerId") = true ∨
          invalidReq (vars.get "transportationId") = true →
        ∃ f, handle_crane_loading now db vars = ⟨.error (.validation f), db, []⟩) ∧
    (∀ (now : Timestamp) (key : Nat) (db : Store) (vars : VarSet),
        key ≠ 0 → invalidReq (vars.get "containerId") = true →
        (crane_loading_task now key db vars).res = .error (.validation "containerId") ∧
        lookupDesc (crane_loading_task now key db vars).db key ≠ none ∧
        (crane_loading_task now key db vars).calls ≠ []) := by
  constructor
  · intro now db vars h
    unfold handle_crane_loading
    by_cases hc : invalidReq (vars.get "containerId") = true
    · exact ⟨"containerId", by simp [hc]⟩
    · rcases h with h | h
      · exact absurd h hc
      · exact ⟨"transportationId", by simp [hc, h]⟩
  · intro now key db vars hkey hc
    unfold crane_loading_task
    simp only [hkey, if_true, ne_eq]
    unfold handle_crane_loading
    simp only [hc, if_true]
    refine ⟨rfl, ?_, by simp⟩
    simp [lookupDesc_insert]

/-- Claim C3: under any sequence of storage-handler invocations, a
container whose storage rows are all complete keeps them complete
(complete is terminal), and writing complete when the rows are already
complete leaves the store unchanged (idempotent no-op). -/
theorem storage_complete_is_terminal (now : Timestamp) (jobs : List VarSet)
    (db : Store) (cid : String)
    (h : ∀ r ∈ db.storages, r.container_id = cid → r.storage_status = "complete") :
    (∀ r ∈ (runStorageSeq now jobs db).storages,
        r.container_id = cid → r.storage_status = "complete") ∧
    (∀ dbA : Store,
        (∀ r ∈ dbA.storages, r.container_id = cid → r.storage_status = "complete") →
        (update_storage_status dbA (.VStr cid) "complete").1 = dbA) := by
  constructor
  · induction jobs generalizing db with
    | nil => exact h
    | cons j js ih =>
        have hstep : ∀ r ∈ (handle_storage now db j).db.storages,
            r.container_id = cid → r.storage_status = "complete" := by
          rcases handle_storage_storages now db j with heq | ⟨cv, heq⟩
          · rw [heq]; exact h
          · rw [heq]
            intro r hr hrc
            rw [List.mem_map] at hr
            obtain ⟨r0, hr0, hr0eq⟩ := hr
            by_cases hm : Value.VStr r0.container_id == cv
            · rw [if_pos hm] at hr0eq
              rw [← hr0eq]
            · rw [if_neg hm] at hr0eq
              subst hr0eq
              exact h r0 hr0 hrc
        exact ih ((handle_storage now db j).db) hstep
  · intro dbA hA
    unfold update_storage_status
    have : dbA.storages.map (fun r =>
        if Value.VStr r.container_id == Value.VStr cid then
          { r with storage_status := "complete" } else r) = dbA.storages := by
      apply map_id_of_mem
      intro r hr
      by_cases hm : Value.VStr r.container_id == Value.VStr cid
      · rw [if_pos hm]
        have hc : r.container_id = cid := by
          have := (beq_iff_eq).mp hm
          exact Value.VStr.inj this
        have := hA r hr hc
        cases r
        simp_all
      · rw [if_neg hm]
    rw [this]

/-- Claim C3 witness: on a store whose single storage row is already
complete, the storage write is a no-op. -/
theorem storage_complete_is_terminal_witness :
    (update_storage_status c3db (.VStr "C1001") "complete").1 = c3db :=
  (storage_complete_is_terminal ⟨2025, 1, 1, 0, 0, 0⟩ [] c3db "C1001"
    (by decide)).2 c3db (by decide)

/-- Claim C4: for a job whose container exists in the store, the
weighing handler emits weightStatus OK when the stored weight is at
most 30480 and OVERWEIGHT above, leaves the store unchanged, and makes
no write call at all. -/
theorem weighing_pure_weight_check (now : Timestamp) (db : Store) (vars : VarSet)
    (cid : String) (cd : ContainerRec)
    (hget : vars.get "containerId" = some (.VStr cid))
    (hvalid : invalidReq (vars.get "containerId") = false)
    (hfound : get_container db (.VStr cid) = some cd) :
    okAnd (fun out => out.get "weightStatus" =
        some (.VStr (if cd.weight ≤ 30480 then "OK" else "OVERWEIGHT")))
      (handle_weighing now db vars).res ∧
    (handle_weighing now db vars).db = db ∧
    ∀ c ∈ (handle_weighing now db vars).calls, c.isWrite = false := by
  unfold handle_weighing
  rw [hget] at hvalid ⊢
  simp only [hvalid, Bool.false_eq_true, if_false, Option.getD_some]
  rw [hfound]
  refine ⟨?_, rfl, ?_⟩
  · simp only [okAnd]
    simp +decide [VarSet.get_set]
  · intro c hc
    simp only [List.mem_singleton] at hc
    subst hc
    rfl

/-- Claim C4 witness: the 35000 kg container of the spec example is
reported OVERWEIGHT with no store mutation. -/
theorem weighing_pure_weight_check_witness :
    okAnd (fun out => out.get "weightStatus" =
        some (.VStr (if (35000 : Int) ≤ 30480 then "OK" else "OVERWEIGHT")))
      (handle_weighing ⟨2025, 1, 2, 0, 0, 0⟩ c4db [("containerId", .VStr "C1001")]).res ∧
    (handle_weighing ⟨2025, 1, 2, 0, 0, 0⟩ c4db [("containerId", .VStr "C1001")]).db = c4db :=
  ⟨(weighing_pure_weight_check ⟨2025, 1, 2, 0, 0, 0⟩ c4db [("containerId", .VStr "C1001")]
      "C1001" ⟨"C1001", "loading", 35000, none, none, none, none, none⟩
      (by decide) (by decide) (by decide)).1,
   (weighing_pure_weight_check ⟨2025, 1, 2, 0, 0, 0⟩ c4db [("containerId", .VStr "C1001")]
      "C1001" ⟨"C1001", "loading", 35000, none, none, none, none, none⟩
      (by decide) (by decide) (by decide)).2.1⟩

/-- Claim C2 witness: concrete instantiation of the amended claim —
the handler rejects the sentinel containerId with no store call, and
the wrapper still records the process instance for key 7. -/
theorem crane_validation_no_handler_store_access_witness :
    (∃ f, handle_crane_loading ⟨2025, 1, 1, 0, 0, 0⟩ c2wdb
        [("containerId", .VStr "N/A"), ("transportationId", .VStr "truck101")] =
        ⟨.error (.validation f), c2wdb, []⟩) ∧
    lookupDesc (crane_loading_task ⟨2025, 1, 1, 0, 0, 0⟩ 7 c2wdb
        [("containerId", .VStr "N/A"), ("transportationId", .VStr "truck101")]).db 7 ≠ none :=
  ⟨crane_validation_no_handler_store_access.1 ⟨2025, 1, 1, 0, 0, 0⟩ c2wdb
      [("containerId", .VStr "N/A"), ("transportationId", .VStr "truck101")]
      (Or.inl (by decide)),
   (crane_validation_no_handler_store_access.2 ⟨2025, 1, 1, 0, 0, 0⟩ 7 c2wdb
      [("containerId", .VStr "N/A"), ("transportationId", .VStr "truck101")]
      (by decide) (by decide)).2.1⟩

/-- Claim C5: every scenario emitted by the reconstructor — in its
flow.py form or its start_workflow.py form — has a string
transportationId and a numeric weight, and when the transportationId
has the truck marker it carries both checkIn and checkOut in
YYYY-MM-DD HH:MM:SS form; truck rows lacking a timestamp are excluded
entirely. -/
theorem reconstructor_never_emits_incomplete_truck (db : Store) (s : VarSet)
    (hs : s ∈ flow_fetch_workflow_scenarios db ∨ s ∈ sw_fetch_workflow_scenarios db) :
    scenarioWellFormed s := by
  have hmem : s ∈ (sortedRows db).filterMap scenarioOfRow := by
    rcases hs with hs | hs
    · unfold flow_fetch_workflow_scenarios at hs
      by_cases hrf : db.read_fail = true
      · rw [if_pos hrf] at hs; simp at hs
      · rw [if_neg hrf] at hs; exact hs
    · unfold sw_fetch_workflow_scenarios at hs
      by_cases hrf : db.read_fail = true
      · rw [if_pos hrf] at hs; simp at hs
      · rw [if_neg hrf] at hs
        cases hlist : (sortedRows db).filterMap scenarioOfRow with
        | nil => rw [hlist] at hs; simp at hs
        | cons x xs =>
            rw [hlist] at hs
            simp only [List.mem_singleton] at hs
            subst hs
            exact hlist ▸ List.mem_cons_self s xs
  rw [List.mem_filterMap] at hmem
  obtain ⟨row, _, hrow⟩ := hmem
  exact scenarioOfRow_wellFormed row s hrow

/-- Claim C5 witness: the spec example store (one truck with only
check_in, one ship with no timestamps) emits exactly the ship
scenario, and that scenario is well formed. -/
theorem reconstructor_never_emits_incomplete_truck_witness :
    flow_fetch_workflow_scenarios c5db =
      [[("containerId", .VStr "C1002"), ("transportationId", .VStr "ship9109"),
        ("operationType", .VStr "unloading"), ("weight", .VNum 20000),
        ("storageStatus", .VStr "incomplete")]] ∧
    scenarioWellFormed
      [("containerId", .VStr "C1002"), ("transportationId", .VStr "ship9109"),
       ("operationType", .VStr "unloading"), ("weight", .VNum 20000),
       ("storageStatus", .VStr "incomplete")] :=
  ⟨by decide,
   reconstructor_never_emits_incomplete_truck c5db
     [("containerId", .VStr "C1002"), ("transportationId", .VStr "ship9109"),
      ("operationType", .VStr "unloading"), ("weight", .VNum 20000),
      ("storageStatus", .VStr "incomplete")] (Or.inl (by decide))⟩

/-- Claim C6: when the referenced container is absent from the store,
weighing and storage abort the job with the fatal not-found error (and
storage leaves the store untouched), while crane loading and unloading
only log a warning and complete normally with their merged variable
set. -/
theorem entity_not_found_split (now : Timestamp) (db : Store) (vars : VarSet)
    (cid : String)
    (hget : vars.get "containerId" = some (.VStr cid))
    (hcid : invalidReq (vars.get "containerId") = false)
    (htid : invalidReq (vars.get "transportationId") = false)
    (hnone : get_container db (.VStr cid) = none) :
    (handle_weighing now db vars).res = .error .notFound ∧
    (handle_storage now db vars).res = .error .notFound ∧
    (handle_storage now db vars).db = db ∧
    okAnd (fun out => out.get "craneLoadingStatus" = some (.VStr "completed"))
      (handle_crane_loading now db vars).res ∧
    okAnd (fun out => out.get "craneUnloadingStatus" = some (.VStr "completed"))
      (handle_crane_unloading now db vars).res := by
  unfold handle_weighing handle_storage handle_crane_loading handle_crane_unloading
  rw [hget] at hcid ⊢
  simp only [hcid, htid, Bool.false_eq_true, if_false, Option.getD_some]
  rw [hnone]
  refine ⟨rfl, rfl, rfl, ?_, ?_⟩ <;>
    · simp only [okAnd]
      simp +decide [VarSet.get_set]

/-- Claim C6 witness: on the empty store, weighing and storage abort
for container C1001 while crane loading completes. -/
theorem entity_not_found_split_witness :
    (handle_weighing ⟨2025, 1, 3, 0, 0, 0⟩ c6db c6vars).res = .error .notFound ∧
    (handle_storage ⟨2025, 1, 3, 0, 0, 0⟩ c6db c6vars).res = .error .notFound ∧
    okAnd (fun out => out.get "craneLoadingStatus" = some (.VStr "completed"))
      (handle_crane_loading ⟨2025, 1, 3, 0, 0, 0⟩ c6db c6vars).res :=
  ⟨(entity_not_found_split ⟨2025, 1, 3, 0, 0, 0⟩ c6db c6vars "C1001"
      (by decide) (by decide) (by decide) (by decide)).1,
   (entity_not_found_split ⟨2025, 1, 3, 0, 0, 0⟩ c6db c6vars "C1001"
      (by decide) (by decide) (by decide) (by decide)).2.1,
   (entity_not_found_split ⟨2025, 1, 3, 0, 0, 0⟩ c6db c6vars "C1001"
      (by decide) (by decide) (by decide) (by decide)).2.2.2.1⟩

/-- Claim C7: the truck check-in handler reuses a caller-supplied
checkIn value verbatim when one is present (and truthy), mints a fresh
timestamp at the point of call otherwise, and in both cases the
persisted update supplies only the check_in column — leaving check_out
and all non-matching transport rows unchanged. -/
theorem truck_checkin_partial_update (now : Timestamp) (db : Store) (vars : VarSet)
    (tid : String)
    (hcid : invalidReq (vars.get "containerId") = false)
    (htid : vars.get "transportationId" = some (.VStr tid))
    (htruck : strStartsWith tid "truck" = true) :
    (∀ s : String, vars.get "checkIn" = some (.VStr s) → s ≠ "" →
        (handle_truck_checkin now db vars).calls =
          [.updateTransport (.VStr tid) (some (.VStr s)) none] ∧
        okAnd (fun out => out.get "checkIn" = some (.VStr s))
          (handle_truck_checkin now db vars).res) ∧
    ((vars.get "checkIn" = none ∨ vars.get "checkIn" = some .VNone ∨
        vars.get "checkIn" = some (.VStr "")) →
        (handle_truck_checkin now db vars).calls =
          [.updateTransport (.VStr tid) (some (.VStr (fmtTimestamp now))) none] ∧
        okAnd (fun out => out.get "checkIn" = some (.VStr (fmtTimestamp now)))
          (handle_truck_checkin now db vars).res) ∧
    (∃ f : Option Timestamp → Option Timestamp,
        (handle_truck_checkin now db vars).db.transports =
          db.transports.map (fun r =>
            if r.transportation_id = tid then { r with check_in := f r.check_in } else r)) := by
  have htidv : invalidReq (vars.get "transportationId") = false := by
    rw [htid]; exact truck_marker_valid tid htruck
  unfold handle_truck_checkin
  rw [htid] at htidv ⊢
  simp only [hcid, htidv, Bool.false_eq_true, if_false, Option.getD_some, htruck,
    Bool.not_true, if_false]
  refine ⟨?_, ?_, ?_⟩
  · intro s hs hne
    rw [hs]
    have htr : Value.truthy (.VStr s) = true := by simp [Value.truthy, hne]
    simp only [htr, if_true]
    refine ⟨?_, ?_⟩
    · rcases hupd : update_transport_timestamps db (.VStr tid) (some (.VStr s)) none
        with ⟨db1, okb⟩
      simp [hupd]
    · rcases hupd : update_transport_timestamps db (.VStr tid) (some (.VStr s)) none
        with ⟨db1, okb⟩
      simp only [hupd, okAnd]
      simp +decide [VarSet.get_set]
  · intro hcase
    have hci : (match vars.get "checkIn" with
        | some v => if v.truthy then v else Value.VStr (fmtTimestamp now)
        | none => Value.VStr (fmtTimestamp now)) = Value.VStr (fmtTimestamp now) := by
      rcases hcase with hc | hc | hc <;> rw [hc] <;> simp [Value.truthy]
    rw [hci]
    refine ⟨?_, ?_⟩
    · rcases hupd : update_transport_timestamps db (.VStr tid)
        (some (.VStr (fmtTimestamp now))) none with ⟨db1, okb⟩
      simp [hupd]
    · rcases hupd : update_transport_timestamps db (.VStr tid)
        (some (.VStr (fmtTimestamp now))) none with ⟨db1, okb⟩
      simp only [hupd, okAnd]
      simp +decide [VarSet.get_set]
  · obtain ⟨f, hf⟩ := update_transport_frame db tid (some (match vars.get "checkIn" with
      | some v => if v.truthy then v else Value.VStr (fmtTimestamp now)
      | none => Value.VStr (fmtTimestamp now)))
    refine ⟨f, ?_⟩
    rcases hupd : update_transport_timestamps db (.VStr tid) (some (match vars.get "checkIn" with
      | some v => if v.truthy then v else Value.VStr (fmtTimestamp now)
      | none => Value.VStr (fmtTimestamp now))) none with ⟨db1, okb⟩
    rw [hupd] at hf
    simp only [hupd]
    exact hf

/-- Claim C7 witness: a job already carrying a checkIn value sees that
exact value passed to the partial transport update, with no check_out
argument, and echoed in the output variable set. -/
theorem truck_checkin_partial_update_witness :
    (handle_truck_checkin ⟨2025, 10, 8, 12, 0, 0⟩ c7db c7vars).calls =
      [.updateTransport (.VStr "truck101") (some (.VStr "2025-10-08 08:00:00")) none] ∧
    okAnd (fun out => out.get "checkIn" = some (.VStr "2025-10-08 08:00:00"))
      (handle_truck_checkin ⟨2025, 10, 8, 12, 0, 0⟩ c7db c7vars).res :=
  (truck_checkin_partial_update ⟨2025, 10, 8, 12, 0, 0⟩ c7db c7vars "truck101"
      (by decide) (by decide) (by decide)).1
    "2025-10-08 08:00:00" (by decide) (by decide)

/-- Claim C8: each of the six handlers, on inputs satisfying its
preconditions, succeeds with an output variable set that preserves
every input key outside that handler's overlaid result fields and
always contains the three routing-critical keys containerId,
transportationId and operationType. -/
theorem handlers_preserve_variables :
    (∀ (now : Timestamp) (db : Store) (vars : VarSet),
        invalidReq (vars.get "containerId") = false →
        invalidReq (vars.get "transportationId") = false →
        okAnd (fun out => preservesExcept ovCraneLoading vars out ∧ hasRoutingKeys out)
          (handle_crane_loading now db vars).res) ∧
    (∀ (now : Timestamp) (db : Store) (vars : VarSet),
        invalidReq (vars.get "containerId") = false →
        invalidReq (vars.get "transportationId") = false →
        okAnd (fun out => preservesExcept ovCraneUnloading vars out ∧ hasRoutingKeys out)
          (handle_crane_unloading now db vars).res) ∧
    (∀ (now : Timestamp) (db : Store) (vars : VarSet) (cid : String) (cd : ContainerRec),
        vars.get "containerId" = some (.VStr cid) →
        invalidReq (vars.get "containerId") = false →
        get_container db (.VStr cid) = some cd →
        okAnd (fun out => preservesExcept ovWeighing vars out ∧ hasRoutingKeys out)
          (handle_weighing now db vars).res) ∧
    (∀ (now : Timestamp) (db : Store) (vars : VarSet) (cid : String) (cd : ContainerRec),
        vars.get "containerId" = some (.VStr cid) →
        invalidReq (vars.get "containerId") = false →
        get_container db (.VStr cid) = some cd →
        okAnd (fun out => preservesExcept ovStorage vars out ∧ hasRoutingKeys out)
          (handle_storage now db vars).res) ∧
    (∀ (now : Timestamp) (db : Store) (vars : VarSet) (tid : String),
        invalidReq (vars.get "containerId") = false →
        vars.get "transportationId" = some (.VStr tid) →
        strStartsWith tid "truck" = true →
        okAnd (fun out => preservesExcept ovCheckIn vars out ∧ hasRoutingKeys out)
          (handle_truck_checkin now db vars).res) ∧
    (∀ (now : Timestamp) (db : Store) (vars : VarSet) (tid : String),
        invalidReq (vars.get "containerId") = false →
        vars.get "transportationId" = some (.VStr tid) →
        strStartsWith tid "truck" = true →
        okAnd (fun out => preservesExcept ovCheckOut vars out ∧ hasRoutingKeys out)
          (handle_truck_checkout now db vars).res) := by
  refine ⟨?_, ?_, ?_, ?_, ?_, ?_⟩
  · intro now db vars hcid htid
    unfold handle_crane_loading
    simp only [hcid, htid, Bool.false_eq_true, if_false, okAnd]
    constructor
    · intro k hk
      simp only [ovCraneLoading, List.mem_cons, List.not_mem_nil, or_false, not_or] at hk
      obtain ⟨h1, h2, h3, h4, h5, h6⟩ := hk
      simp [VarSet.get_set, h1, h2, h3, h4, h5, h6]
    · refine ⟨?_, ?_, ?_⟩ <;> simp +decide [hasRoutingKeys, VarSet.get_set]
  · intro now db vars hcid htid
    unfold handle_crane_unloading
    simp only [hcid, htid, Bool.false_eq_true, if_false, okAnd]
    constructor
    · intro k hk
      simp only [ovCraneUnloading, List.mem_cons, List.not_mem_nil, or_false, not_or] at hk
      obtain ⟨h1, h2, h3, h4, h5, h6, h7⟩ := hk
      simp [VarSet.get_set, h1, h2, h3, h4, h5, h6, h7]
    · refine ⟨?_, ?_, ?_⟩ <;> simp +decide [hasRoutingKeys, VarSet.get_set]
  · intro now db vars cid cd hget hcid hfound
    unfold handle_weighing
    rw [hget] at hcid ⊢
    simp only [hcid, Bool.false_eq_true, if_false, Option.getD_some]
    rw [hfound]
    simp only [okAnd]
    constructor
    · intro k hk
      simp only [ovWeighing, List.mem_cons, List.not_mem_nil, or_false, not_or] at hk
      obtain ⟨h1, h2, h3, h4, h5, h6, h7, h8, h9, h10⟩ := hk
      simp [VarSet.get_set, h1, h2, h3, h4, h5, h6, h7, h8, h9, h10]
    · refine ⟨?_, ?_, ?_⟩ <;> simp +decide [hasRoutingKeys, VarSet.get_set]
  · intro now db vars cid cd hget hcid hfound
    unfold handle_storage
    rw [hget] at hcid ⊢
    simp only [hcid, Bool.false_eq_true, if_false, Option.getD_some]
    rw [hfound]
    rcases hupd : update_storage_status db (.VStr cid) "complete" with ⟨db1, okb⟩
    simp only [hupd, okAnd]
    constructor
    · intro k hk
      simp only [ovStorage, List.mem_cons, List.not_mem_nil, or_false, not_or] at hk
      obtain ⟨h1, h2, h3, h4, h5, h6, h7⟩ := hk
      simp [VarSet.get_set, h1, h2, h3, h4, h5, h6, h7]
    · refine ⟨?_, ?_, ?_⟩ <;> simp +decide [hasRoutingKeys, VarSet.get_set]
  · intro now db vars tid hcid htid htruck
    have htidv : invalidReq (vars.get "transportationId") = false := by
      rw [htid]; exact truck_marker_valid tid htruck
    unfold handle_truck_checkin
    rw [htid] at htidv ⊢
    simp only [hcid, htidv, Bool.false_eq_true, if_false, Option.getD_some, htruck,
      Bool.not_true, if_false]
    rcases hupd : update_transport_timestamps db (.VStr tid)
        (some (match vars.get "checkIn" with
          | some v => if v.truthy then v else Value.VStr (fmtTimestamp now)
          | none => Value.VStr (fmtTimestamp now))) none with ⟨db1, okb⟩
    simp only [hupd, okAnd]
    constructor
    · intro k hk
      simp only [ovCheckIn, List.mem_cons, List.not_mem_nil, or_false, not_or] at hk
      obtain ⟨h1, h2, h3, h4, h5, h6⟩ := hk
      simp [VarSet.get_set, h1, h2, h3, h4, h5, h6]
    · refine ⟨?_, ?_, ?_⟩ <;> simp +decide [hasRoutingKeys, VarSet.get_set]
  · intro now db vars tid hcid htid htruck
    have htidv : invalidReq (vars.get "transportationId") = false := by
      rw [htid]; exact truck_marker_valid tid htruck
    unfold handle_truck_checkout
    rw [htid] at htidv ⊢
    simp only [hcid, htidv, Bool.false_eq_true, if_false, Option.getD_some, htruck,
      Bool.not_true, if_false]
    rcases hupd : update_transport_timestamps db (.VStr tid) none
        (some (match vars.get "checkOut" with
          | some v => if v.truthy then v else Value.VStr (fmtTimestamp now)
          | none => Value.VStr (fmtTimestamp now))) with ⟨db1, okb⟩
    simp only [hupd, okAnd]
    constructor
    · intro k hk
      simp only [ovCheckOut, List.mem_cons, List.not_mem_nil, or_false, not_or] at hk
      obtain ⟨h1, h2, h3, h4, h5, h6⟩ := hk
      simp [VarSet.get_set, h1, h2, h3, h4, h5, h6]
    · refine ⟨?_, ?_, ?_⟩ <;> simp +decide [hasRoutingKeys, VarSet.get_set]

/-- Claim C8 witness: crane loading and truck check-in, run on a
concrete job with an extra passthrough key, both satisfy the
preservation and routing-key contract. -/
theorem handlers_preserve_variables_witness :
    okAnd (fun out => preservesExcept ovCraneLoading c8vars out ∧ hasRoutingKeys out)
      (handle_crane_loading ⟨2025, 1, 4, 0, 0, 0⟩ c8db c8vars).res ∧
    okAnd (fun out => preservesExcept ovCheckIn c8vars out ∧ hasRoutingKeys out)
      (handle_truck_checkin ⟨2025, 1, 4, 0, 0, 0⟩ c8db c8vars).res :=
  ⟨handlers_preserve_variables.1 ⟨2025, 1, 4, 0, 0, 0⟩ c8db c8vars (by decide) (by decide),
   handlers_preserve_variables.2.2.2.2.1 ⟨2025, 1, 4, 0, 0, 0⟩ c8db c8vars "truck101"
     (by decide) (by decide) (by decide)⟩

/-- Claim C9: recordStart upserts by process_instance_key, fully
replacing any existing description with the freshly built one;
recordCompletion appends an Ended/Status suffix to the existing
description, and is a silent no-op returning success when no row
exists for the key. -/
theorem process_tracker_semantics :
    (∀ (db : Store) (key : Nat) (n1 n2 : Timestamp) (o1 a1 b1 o2 a2 b2 : Option Value),
        lookupDesc (insert_process_instance n2
            (insert_process_instance n1 db key o1 a1 b1).1 key o2 a2 b2).1 key =
          some (buildStartDesc n2 o2 a2 b2)) ∧
    (∀ (db : Store) (key : Nat) (now : Timestamp) (status desc : String),
        lookupDesc db key = some desc →
        lookupDesc (update_process_instance_completion now db key status).1 key =
          some (desc ++ ", Ended: " ++ fmtTimestamp now ++ ", Status: " ++ status)) ∧
    (∀ (db : Store) (key : Nat) (now : Timestamp) (status : String),
        lookupDesc db key = none →
        update_process_instance_completion now db key status = (db, true)) := by
  refine ⟨?_, ?_, ?_⟩
  · intro db key n1 n2 o1 a1 b1 o2 a2 b2
    exact lookupDesc_insert n2 _ key o2 a2 b2
  · intro db key now status desc h
    unfold lookupDesc at h
    rw [Option.map_eq_some'] at h
    obtain ⟨p, hp, hdesc⟩ := h
    have hkey : p.1 = key := by
      have := List.find?_some hp
      simpa using this
    have hany : db.processes.any (fun q => q.1 = key) = true := by
      rw [List.any_eq_true]
      exact ⟨p, List.mem_of_find?_eq_some hp, by simpa using hkey⟩
    unfold update_process_instance_completion
    rw [hp]
    unfold lookupDesc
    rw [find?_map_replace db.processes key _ hany]
    simp [hdesc]
  · intro db key now status h
    unfold lookupDesc at h
    rw [Option.map_eq_none'] at h
    unfold update_process_instance_completion
    rw [h]

/-- Claim C9 witness: recording key 7 twice leaves only the second
description, and completing the unknown key 42 is a no-op success. -/
theorem process_tracker_semantics_witness :
    lookupDesc (insert_process_instance ⟨2025, 1, 5, 0, 0, 0⟩
        (insert_process_instance ⟨2025, 1, 5, 1, 0, 0⟩ c9db 7
          (some (.VStr "loading")) (some (.VStr "C1001")) (some (.VStr "truck101"))).1 7
        (some (.VStr "unloading")) (some (.VStr "C1002")) (some (.VStr "ship9109"))).1 7 =
      some (buildStartDesc ⟨2025, 1, 5, 0, 0, 0⟩
        (some (.VStr "unloading")) (some (.VStr "C1002")) (some (.VStr "ship9109"))) ∧
    update_process_instance_completion ⟨2025, 1, 5, 2, 0, 0⟩ c9db 42 "completed" =
      (c9db, true) :=
  ⟨process_tracker_semantics.1 c9db 7 ⟨2025, 1, 5, 1, 0, 0⟩ ⟨2025, 1, 5, 0, 0, 0⟩
      (some (.VStr "loading")) (some (.VStr "C1001")) (some (.VStr "truck101"))
      (some (.VStr "unloading")) (some (.VStr "C1002")) (some (.VStr "ship9109")),
   process_tracker_semantics.2.2 c9db 42 ⟨2025, 1, 5, 2, 0, 0⟩ "completed" (by decide)⟩

/-- Claim C10: when the store read itself fails, get_container maps
every request to None — exactly the result for an absent container, so
the two are indistinguishable at this interface — and consequently the
weighing and storage handlers abort through their fatal not-found
branch while the crane handlers complete normally. -/
theorem read_fail_maps_to_none (now : Timestamp) (db : Store) (vars : VarSet)
    (cid : String)
    (hfail : db.read_fail = true)
    (hget : vars.get "containerId" = some (.VStr cid))
    (hcid : invalidReq (vars.get "containerId") = false)
    (htid : invalidReq (vars.get "transportationId") = false) :
    (∀ w : Value, get_container db w = none) ∧
    (∀ (dbA : Store) (cidA : String), dbA.read_fail = false →
        dbA.containers.find? (fun c => c.container_id = cidA) = none →
        get_container dbA (.VStr cidA) = none) ∧
    (handle_weighing now db vars).res = .error .notFound ∧
    (handle_storage now db vars).res = .error .notFound ∧
    okAnd (fun out => out.get "craneLoadingStatus" = some (.VStr "completed"))
      (handle_crane_loading now db vars).res ∧
    okAnd (fun out => out.get "craneUnloadingStatus" = some (.VStr "completed"))
      (handle_crane_unloading now db vars).res := by
  have hnone : ∀ w : Value, get_container db w = none := by
    intro w
    unfold get_container
    simp [hfail]
  refine ⟨hnone, ?_, ?_, ?_, ?_, ?_⟩
  · intro dbA cidA hA hfind
    unfold get_container
    simp [hA, hfind]
  · unfold handle_weighing
    rw [hget] at hcid ⊢
    simp only [hcid, Bool.false_eq_true, if_false, Option.getD_some]
    rw [hnone]
  · unfold handle_storage
    rw [hget] at hcid ⊢
    simp only [hcid, Bool.false_eq_true, if_false, Option.getD_some]
    rw [hnone]
  · unfold handle_crane_loading
    rw [hget] at hcid ⊢
    simp only [hcid, htid, Bool.false_eq_true, if_false, Option.getD_some]
    simp only [okAnd]
    simp +decide [VarSet.get_set]
  · unfold handle_crane_unloading
    rw [hget] at hcid ⊢
    simp only [hcid, htid, Bool.false_eq_true, if_false, Option.getD_some]
    simp only [okAnd]
    simp +decide [VarSet.get_set]

/-- Claim C10 witness: on a store whose reads fail, weighing and
storage abort for a container that does exist in the container
table. -/
theorem read_fail_maps_to_none_witness :
    (handle_weighing ⟨2025, 1, 6, 0, 0, 0⟩ c10db c10vars).res = .error .notFound ∧
    (handle_storage ⟨2025, 1, 6, 0, 0, 0⟩ c10db c10vars).res = .error .notFound :=
  ⟨(read_fail_maps_to_none ⟨2025, 1, 6, 0, 0, 0⟩ c10db c10vars "C1001"
      (by decide) (by decide) (by decide) (by decide)).2.2.1,
   (read_fail_maps_to_none ⟨2025, 1, 6, 0, 0, 0⟩ c10db c10vars "C1001"
      (by decide) (by decide) (by decide) (by decide)).2.2.2.1⟩
